import Mathlib

/-!
Verification development for the hybrid recommendation and vector retrieval
subsystem of the Learn-roadmap repository (backend/app/core/recommendation_engine.py,
backend/app/core/vector_store.py, backend/app/api/v1/endpoints/resources.py).

Numeric values are modelled over the rationals.  Python dictionaries whose keys
may be absent are modelled with Option fields: a `none` value models a record
that lacks the key.  Exceptions raised and caught inside the Python code are
modelled with `Except Unit`.  The external cache collaborator is modelled as
always missing (the spec requires silent degradation to "always miss", and a
miss is the state of any fresh process).
-/

namespace LearnRoadmap

/-- Resource record, mirroring the dictionary shape produced by the endpoints
(`resources.py`, `recommendations.py`) and consumed by the engine and the
vector store.  Optional fields model SQL NULL / absent keys. -/
structure Resource where
  id : Option Nat := none
  title : String := ""
  description : String := ""
  url : String := ""
  media_type : Option String := none
  difficulty : Option String := none
  duration_minutes : Option ℚ := none
  rating : ℚ := 0
  rating_count : Nat := 0
  tags : List String := []
  prerequisites : List String := []
  learning_style : Option String := none
  source : String := ""
deriving DecidableEq, Repr

/-- Interaction record as handed to the engine by the recommendations endpoint.
`resource_id = none` models a dictionary without the key (so that
`interaction[...]` raises KeyError while `interaction.get(...)` yields None).
`daysOld` models `(datetime.utcnow() - created_at).days` for a past timestamp;
a record without a created_at key behaves as age 0. -/
structure Interaction where
  resource_id : Option Nat := none
  interaction_type : Option String := none
  rating : Option ℚ := none
  daysOld : Nat := 0
deriving DecidableEq, Repr

/-- User data mapping handed to the engine (see endpoints/recommendations.py). -/
structure UserData where
  learning_style : Option String := none
  experience_level : Option String := none
  preferred_difficulty : Option String := none
  preferred_learning_style : Option String := none
  preferred_media_types : Option (List String) := none
deriving DecidableEq, Repr

/-- Python truthiness of an optional string (absent key and empty string are falsy). -/
def truthyStr : Option String → Bool
  | none => false
  | some s => s ≠ ""

/-- HybridRecommendationEngine._preprocess_text: empty guard, lowercase, strip. -/
def preprocessText (s : String) : String :=
  if s = "" then "" else s.toLower.trim

/-- Word character in the sense of the regex token pattern (alphanumeric or underscore). -/
def isWordChar (c : Char) : Bool := c.isAlphanum || c = '_'

/-- Helper for tokenisation: collects maximal runs of word characters, keeping
runs of length at least two (the vectorizer token pattern). The second argument
accumulates the current run in reverse. -/
def tokensGo : List Char → List Char → List String
  | [], cur => if cur.length ≥ 2 then [String.mk cur.reverse] else []
  | c :: cs, cur =>
    if isWordChar c then tokensGo cs (c :: cur)
    else (if cur.length ≥ 2 then [String.mk cur.reverse] else []) ++ tokensGo cs []

/-- Modelled from the spec: the TF-IDF text transform tokenises into word-character
runs of length at least two (scikit-learn is external to the repository; the spec
describes "a term-frequency/inverse-document-frequency transform over the corpus"). -/
def tokensPy (s : String) : List String := tokensGo s.toList []

/-- Modelled from the spec: "common stop-words removed".  A representative subset
of the English stop-word list used by the external vectorizer. -/
def stopWords : List String :=
  ["a", "an", "and", "are", "as", "at", "be", "been", "but", "by", "call", "can",
   "do", "for", "from", "had", "has", "have", "he", "her", "his", "i", "if", "in",
   "into", "is", "it", "its", "may", "me", "more", "most", "my", "no", "not", "of",
   "on", "once", "one", "only", "or", "our", "she", "so", "some", "such", "than",
   "that", "the", "their", "them", "then", "there", "these", "they", "this", "to",
   "too", "was", "we", "were", "what", "when", "where", "which", "while", "who",
   "why", "will", "with", "you", "your"]

/-- Modelled from the spec: the fitted TF-IDF vocabulary is the set of distinct
non-stop-word tokens of the corpus, capped at the top 1000 terms; fitting a corpus
with an empty vocabulary raises (the error is caught by the feature builder). -/
def tfidfVocabSize (docs : List String) : Option Nat :=
  let n := ((docs.map tokensPy).flatten.filter (fun t => !(stopWords.contains t))).dedup.length
  if n = 0 then none else some (min n 1000)

/-- The document built per resource in _create_resource_features:
title, description and joined tags, then preprocessed. -/
def resourceDoc (r : Resource) : String :=
  preprocessText (r.title ++ " " ++ r.description ++ " " ++ String.intercalate " " r.tags)

/-- Number of one-hot columns: distinct values per categorical column after
filling missing values with the explicit "unknown" category. -/
def categoricalWidth (rs : List Resource) : Nat :=
  (rs.map (fun r => r.difficulty.getD "unknown")).dedup.length
  + (rs.map (fun r => r.media_type.getD "unknown")).dedup.length
  + (rs.map (fun r => r.learning_style.getD "unknown")).dedup.length

/-- Column count of the combined feature matrix (text + categorical + 3 numeric
columns); none when fitting the text vectorizer raises. -/
def featureWidth (rs : List Resource) : Option Nat :=
  (tfidfVocabSize (rs.map resourceDoc)).map (fun t => t + categoricalWidth rs + 3)

/-- Output dimensionality of _create_resource_features: 20 on the exception and
degenerate paths (the method returns np.zeros((N, 20)) there), and otherwise the
number of retained singular components min(20, width - 1). -/
def featureDim (rs : List Resource) : Nat :=
  match featureWidth rs with
  | none => 20
  | some w => if rs.length = 0 ∨ w = 0 then 20 else min 20 (w - 1)

/-- HybridRecommendationEngine._create_resource_features.
Modelled from the spec at the level of matrix shape: the spec fixes the shape of
the truncated singular-value decomposition output (N rows, min(target, width-1)
columns) but not its entries, and the external decomposition is not repository
code, so entries are modelled as zero.  No theorem in this file depends on the
entries of this matrix; theorems that depend on feature values quantify over an
arbitrary matrix instead. -/
def createResourceFeatures (rs : List Resource) : List (List ℚ) :=
  List.replicate rs.length (List.replicate (featureDim rs) 0)

/-- Dot product of two rational vectors. -/
def dotQ (u v : List ℚ) : ℚ := (List.zipWith (fun a b => a * b) u v).sum

/-- Squared Euclidean norm. -/
def normSq (u : List ℚ) : ℚ := dotQ u u

/-- Modelled from the spec: the external cosine_similarity routine.  When either
argument has zero norm the library normalises it to the zero vector and returns 0;
that case is represented exactly.  On two nonzero arguments the true value
dot/(normU * normV) involves square roots that leave the rationals; it is
represented by the sign-preserving surrogate dot * abs dot / (normSqU * normSqV),
which equals cos * abs cos, agrees with the library on sign and on every zero case,
and is a strictly monotone transform of the cosine, so it induces the same ranking
of candidates.  No theorem in this file depends on the nonzero-case value. -/
def cosineSimQ (u v : List ℚ) : ℚ :=
  if normSq u = 0 ∨ normSq v = 0 then 0
  else dotQ u v * |dotQ u v| / (normSq u * normSq v)

/-- Modelled from the spec: final L2 normalisation of the profile vector.  The
scaling factor is irrational in general; since cosine similarity is invariant
under positive scaling of an argument and the zero vector is left unchanged by
the source (norm-positive guard), normalisation is modelled as the identity,
which preserves every downstream value of the pipeline. -/
def l2NormalizeModel (v : List ℚ) : List ℚ := v

/-- Interaction type weights from _create_user_profile. -/
def typeWeight (t : String) : ℚ :=
  if t = "complete" then 1
  else if t = "rate" then 0.8
  else if t = "save" then 0.6
  else if t = "like" then 0.4
  else if t = "view" then 0.2
  else 0.1

/-- Recency weight max(0.1, 1 / (1 + days_old / 30)) from _create_user_profile. -/
def recencyWeight (daysOld : Nat) : ℚ :=
  max 0.1 (1 / (1 + (daysOld : ℚ) / 30))

/-- The in-place update profile_vector[idx] += 0.3; raises IndexError when the
hash bucket falls outside the 20-slot vector. -/
def bucketAdd (v : List ℚ) (idx : Nat) : Except Unit (List ℚ) :=
  if idx < v.length then .ok (v.set idx (v.getD idx 0 + 0.3)) else .error ()

/-- The in-place update profile_vector += row * w; raises on mismatched shapes. -/
def addScaledRow (v row : List ℚ) (w : ℚ) : Except Unit (List ℚ) :=
  if v.length = row.length then .ok (List.zipWith (fun a b => a + b * w) v row)
  else .error ()

/-- The interaction-history loop of _create_user_profile.  The guard
`if resource_id and resource_id < len(features)` treats a missing id and the id 0
as falsy, so both are skipped. -/
def profileLoop (features : List (List ℚ)) : List Interaction → List ℚ → Except Unit (List ℚ)
  | [], v => .ok v
  | i :: rest, v =>
    let w := recencyWeight i.daysOld * typeWeight (i.interaction_type.getD "view")
    match i.resource_id with
    | some rid =>
      if rid ≠ 0 ∧ rid < features.length then
        match addScaledRow v (features.getD rid []) w with
        | .ok v2 => profileLoop features rest v2
        | .error e => .error e
      else profileLoop features rest v
    | none => profileLoop features rest v

/-- The slice user_interactions[-50:]. -/
def lastFifty (l : List Interaction) : List Interaction := l.drop (l.length - 50)

/-- Body of _create_user_profile inside its try block.  `pyhash` models the
process-seeded Python string hash (hash randomisation makes it an arbitrary
function, so theorems quantify over it). -/
def profileCore (pyhash : String → Nat) (features : List (List ℚ)) (ud : UserData)
    (inters : List Interaction) : Except Unit (List ℚ) :=
  let v0 : List ℚ := List.replicate 20 0
  match (if truthyStr ud.preferred_difficulty then
      bucketAdd v0 (pyhash (ud.preferred_difficulty.getD "") % 100)
    else .ok v0) with
  | .error e => .error e
  | .ok v1 =>
    match (if truthyStr ud.preferred_learning_style then
        bucketAdd v1 (pyhash (ud.preferred_learning_style.getD "") % 100)
      else .ok v1) with
    | .error e => .error e
    | .ok v2 =>
      match profileLoop features (lastFifty inters) v2 with
      | .error e => .error e
      | .ok v3 => .ok (l2NormalizeModel v3)

/-- HybridRecommendationEngine._create_user_profile: any exception during
aggregation is caught and a zero vector of length 100 is returned. -/
def createUserProfile (pyhash : String → Nat) (features : List (List ℚ)) (ud : UserData)
    (inters : List Interaction) : List ℚ :=
  match profileCore pyhash features ud inters with
  | .ok v => v
  | .error _ => List.replicate 100 0

/-- HybridRecommendationEngine._content_based_scoring for one candidate row index:
cosine similarity when the row exists and the dimensionalities agree, the fallback
score 0.1 on a dimensionality mismatch, and 0.0 for an out-of-range row. -/
def contentScore (features : List (List ℚ)) (profile : List ℚ) (rid : Nat) : ℚ :=
  if rid < features.length then
    (if profile.length = (features.getD rid []).length then
      cosineSimQ profile (features.getD rid [])
    else 0.1)
  else 0

/-- HybridRecommendationEngine._collaborative_filtering_scoring: the placeholder
assigns the base popularity score 0.1 to every candidate (the liked/completed
sets it computes are unused). -/
def collaborativeScore (_user_id : Nat) (_inters : List Interaction) (_rid : Nat) : ℚ := 0.1

/-- The weight combination of get_recommendations: cold start below 5 recorded
interactions uses 0.8 content + 0.2 collaborative, otherwise 0.4 + 0.6. -/
def hybridCombine (inters : List Interaction) (cbf cf : ℚ) : ℚ :=
  if inters.length < 5 then 0.8 * cbf + 0.2 * cf
  else 0.4 * cbf + 0.6 * cf

/-- HybridRecommendationEngine._get_recommendation_reason. -/
def recommendationReason (cbf cf : ℚ) : String :=
  if cbf > cf then "Based on your learning preferences and content similarity"
  else if cf > cbf then "Popular among users with similar interests"
  else "Recommended based on your profile and community preferences"

/-- One entry of the list returned by get_recommendations: the resource row
dictionary with recommendation_score and recommendation_reason added. -/
structure Recommendation where
  resource : Resource
  score : ℚ
  reason : String
deriving DecidableEq, Repr

/-- The loop building interacted_resource_ids: `interaction[...]` raises KeyError
for a record that lacks the resource_id key. -/
def interactedIdsE : List Interaction → Except Unit (List Nat)
  | [] => .ok []
  | i :: rest =>
    match i.resource_id with
    | none => .error ()
    | some rid =>
      match interactedIdsE rest with
      | .ok ids => .ok (rid :: ids)
      | .error e => .error e

/-- All interaction resource ids that are present (the value of the interacted
set whenever no record lacks the key). -/
def interactedIdList (inters : List Interaction) : List Nat :=
  inters.filterMap (fun i => i.resource_id)

/-- Descending-by-score order used to rank the (row index, hybrid score) pairs;
a stable sort with this relation is exactly sorted(..., reverse=True) on the
insertion-ordered score dictionary. -/
def scoreGe (p q : Nat × ℚ) : Prop := q.2 ≤ p.2

instance (p q : Nat × ℚ) : Decidable (scoreGe p q) := by
  unfold scoreGe; infer_instance

/-- Body of get_recommendations inside its try block, after the cache miss.
`features` is self.resource_features (computed by the caller when None). -/
def getRecommendationsCore (pyhash : String → Nat) (features : List (List ℚ))
    (user_id : Nat) (ud : UserData) (inters : List Interaction)
    (resources : List Resource) (limit : Nat) : Except Unit (List Recommendation) :=
  let profile := createUserProfile pyhash features ud inters
  match interactedIdsE inters with
  | .error e => .error e
  | .ok ids =>
    let candidates := (List.range resources.length).filter (fun i => !(ids.contains i))
    let pairs := candidates.map (fun rid =>
      (rid, hybridCombine inters (contentScore features profile rid)
        (collaborativeScore user_id inters rid)))
    let ranked := (List.insertionSort scoreGe pairs).take limit
    .ok (ranked.filterMap (fun p =>
      (resources.get? p.1).map (fun r =>
        { resource := r, score := p.2,
          reason := recommendationReason (contentScore features profile p.1)
            (collaborativeScore user_id inters p.1) })))

/-- Descending lexicographic order on (rating, rating_count) used by the
popularity fallback sort_values call; the multi-column pandas sort is stable. -/
def popGeRel (a b : Resource) : Prop :=
  b.rating < a.rating ∨ (a.rating = b.rating ∧ b.rating_count ≤ a.rating_count)

instance (a b : Resource) : Decidable (popGeRel a b) := by
  unfold popGeRel; infer_instance

/-- HybridRecommendationEngine._get_popular_resources: all resources sorted by
rating descending then rating_count descending, truncated to limit, with the
normalised score rating/5 and the fixed reason attached. -/
def popularResources (resources : List Resource) (limit : Nat) : List Recommendation :=
  ((List.insertionSort popGeRel resources).take limit).map (fun r =>
    { resource := r, score := r.rating / 5, reason := "Popular resource" })

/-- The feature matrix used by get_recommendations: self.resource_features when
already set, otherwise built from the current corpus. -/
def engineFeatures (storedFeatures : Option (List (List ℚ))) (resources : List Resource) :
    List (List ℚ) :=
  match storedFeatures with
  | some f => f
  | none => createResourceFeatures resources

/-- HybridRecommendationEngine.get_recommendations with the cache modelled as a
miss: any exception in the try body falls back to the popularity ranking. -/
def getRecommendations (pyhash : String → Nat) (storedFeatures : Option (List (List ℚ)))
    (user_id : Nat) (ud : UserData) (inters : List Interaction)
    (resources : List Resource) (limit : Nat) : List Recommendation :=
  match getRecommendationsCore pyhash (engineFeatures storedFeatures resources)
      user_id ud inters resources limit with
  | .ok recs => recs
  | .error _ => popularResources resources limit

/-- State of the external FAISS index as far as the store logic observes it:
a trained flag and the accumulated vectors.  An IVF index starts untrained and
its add raises until trained; a flat index is born trained. -/
structure FaissIndex where
  isTrained : Bool
  entries : List (List ℚ)
deriving DecidableEq, Repr

/-- VectorStore._initialize_index: an IVF index starts untrained, any other
index type behaves as a flat, always-trained index. -/
def initIndex (indexType : String) : FaissIndex :=
  { isTrained := indexType ≠ "IndexIVFFlat", entries := [] }

/-- VectorStore state: dimension, index type, FAISS index, the vectors array
(None before the first add), the metadata list, and the slot-to-resource-id
mapping (a dictionary with insertion-ordered unique keys). -/
structure VectorStore where
  dimension : Nat
  index_type : String
  index : FaissIndex
  vectors : Option (List (List ℚ))
  metadata : List Resource
  id_mapping : List (Nat × Option Nat)
deriving DecidableEq, Repr

/-- VectorStore.__init__. -/
def VectorStore.init (dim : Nat) (indexType : String) : VectorStore :=
  { dimension := dim, index_type := indexType, index := initIndex indexType,
    vectors := none, metadata := [], id_mapping := [] }

/-- Dictionary write d[k] = v: updates the value in place when the key exists,
appends a new entry otherwise. -/
def dictInsert (m : List (Nat × Option Nat)) (k : Nat) (v : Option Nat) :
    List (Nat × Option Nat) :=
  if m.any (fun p => p.1 = k) then m.map (fun p => if p.1 = k then (k, v) else p)
  else m ++ [(k, v)]

/-- Pad with zeros to the given dimension or truncate to it. -/
def padTrunc (dim : Nat) (v : List ℚ) : List ℚ :=
  if v.length < dim then v ++ List.replicate (dim - v.length) 0 else v.take dim

/-- Modelled from the spec: the placeholder deterministic hash-based text
embedding (VectorStore._create_text_embedding).  The md5 digest is external
library code; it is modelled by the bytes of the text itself scaled into [0, 1],
padded or truncated to the index dimension.  The final L2 normalisation is
omitted as in l2NormalizeModel: no verified statement depends on the entries,
only on determinism and on vector counts. -/
def createTextEmbedding (dim : Nat) (text : String) : List ℚ :=
  padTrunc dim (text.toUTF8.toList.map (fun b => (b.toNat : ℚ) / 255))

/-- VectorStore._create_resource_vector: text embedding of title, description
and tags, categorical embedding of media_type, difficulty and learning_style,
three scaled numeric features, concatenated, truncated or padded to the index
dimension (final L2 normalisation modelled as the identity, as above). -/
def createResourceVector (dim : Nat) (r : Resource) : List ℚ :=
  let combined := preprocessText r.title ++ " " ++ preprocessText r.description
    ++ (if r.tags ≠ [] then " " ++ String.intercalate " " r.tags else "")
  let textEmb := createTextEmbedding dim combined
  let catEmb := createTextEmbedding dim
    (r.media_type.getD "" ++ " " ++ r.difficulty.getD "" ++ " " ++ r.learning_style.getD "")
  let nums := [r.duration_minutes.getD 0 / 1000, r.rating / 5,
    min ((r.rating_count : ℚ) / 1000) 1]
  padTrunc dim (textEmb ++ catEmb ++ nums)

/-- The row loop of add_resources: builds the local vectors and metadata lists
and writes id_mapping[len(metadata) - 1] = resource id for each row, mutating
the id_mapping the store already holds. -/
def addLoop (dim : Nat) : List Resource → List (List ℚ) → List Resource →
    List (Nat × Option Nat) → List (List ℚ) × List Resource × List (Nat × Option Nat)
  | [], vecs, md, m => (vecs, md, m)
  | r :: rest, vecs, md, m =>
    let md2 := md ++ [r]
    addLoop dim rest (vecs ++ [createResourceVector dim r]) md2
      (dictInsert m (md2.length - 1) r.id)

/-- VectorStore.add_resources: replaces self.vectors and self.metadata with the
new batch, merges the new slots into self.id_mapping, then adds to the FAISS
index; an untrained IVF index (corpus below 256) makes index.add raise inside
the try block, so the index and the save are skipped while the three
assignments already made are kept. -/
def add_resources (s : VectorStore) (rs : List Resource) : VectorStore :=
  let t := addLoop s.dimension rs [] [] s.id_mapping
  let s1 := { s with vectors := some t.1, metadata := t.2.1, id_mapping := t.2.2 }
  if t.1.length > 0 then
    let idx := if ¬ s.index.isTrained ∧ 256 ≤ t.1.length then
        { s.index with isTrained := true }
      else s.index
    if idx.isTrained then { s1 with index := { idx with entries := idx.entries ++ t.1 } }
    else s1
  else s1

/-- VectorStore.update_resource: only logs that a full rebuild is needed. -/
def update_resource (s : VectorStore) (_resource_id : Nat) (_rd : Resource) : VectorStore := s

/-- VectorStore.delete_resource: only logs that a full rebuild is needed. -/
def delete_resource (s : VectorStore) (_resource_id : Nat) : VectorStore := s

/-- VectorStore.rebuild_index: re-initialises the index, clears metadata and
id_mapping, and re-adds all resources. -/
def rebuild_index (s : VectorStore) (rs : List Resource) : VectorStore :=
  add_resources { s with index := initIndex s.index_type, metadata := [], id_mapping := [] } rs

/-- The invariant stated by the spec for the vector store. -/
def storeInvariant (s : VectorStore) : Prop :=
  (s.vectors.getD []).length = s.metadata.length
  ∧ s.metadata.length = s.id_mapping.length

/-- Filters accepted by search_similar; a none field models an absent key.
The string and tag filters are only applied when their value is truthy. -/
structure SearchFilters where
  media_type : Option String := none
  difficulty : Option String := none
  learning_style : Option String := none
  min_duration : Option ℚ := none
  max_duration : Option ℚ := none
  min_rating : Option ℚ := none
  tags : Option (List String) := none
deriving DecidableEq, Repr

/-- VectorStore._matches_filters.  A wholly absent filters argument (None or an
empty dictionary, both falsy) accepts everything. -/
def matchesFilters (rd : Resource) : Option SearchFilters → Bool
  | none => true
  | some f =>
    (match f.media_type with
     | some m => m = "" || rd.media_type == some m
     | none => true)
    && (match f.difficulty with
     | some d => d = "" || rd.difficulty == some d
     | none => true)
    && (match f.learning_style with
     | some l => l = "" || rd.learning_style == some l
     | none => true)
    && (match f.min_duration with
     | some d => decide (d ≤ rd.duration_minutes.getD 0)
     | none => true)
    && (match f.max_duration with
     | some d => decide (rd.duration_minutes.getD 0 ≤ d)
     | none => true)
    && (match f.min_rating with
     | some mr => decide (mr ≤ rd.rating)
     | none => true)
    && (match f.tags with
     | some ts => ts.isEmpty || rd.tags.any (fun t => ts.contains t)
     | none => true)

/-- One entry of the search_similar result list. -/
structure SearchResult where
  resource : Resource
  similarity_score : ℚ
  search_rank : Nat
deriving DecidableEq, Repr

/-- Python list indexing metadata[idx]: negative indices count from the end and
an index below -len raises. The caller has already ensured idx < len and
idx different from -1. -/
def pyListGet (md : List Resource) (idx : Int) : Except Unit Resource :=
  let j : Int := if idx < 0 then (md.length : Int) + idx else idx
  if h : 0 ≤ j ∧ j.toNat < md.length then .ok (md.get ⟨j.toNat, h.2⟩) else .error ()

/-- The result-formatting loop of search_similar over the retrieved
(score, index) pairs: skips the FAISS sentinel -1 and out-of-range slots,
attaches similarity_score and search_rank, and keeps a row only when it passes
the filters. -/
def searchLoop (md : List Resource) (f : Option SearchFilters) :
    List (ℚ × Int) → List SearchResult → Except Unit (List SearchResult)
  | [], acc => .ok acc
  | (score, idx) :: rest, acc =>
    if idx ≠ -1 ∧ idx < (md.length : Int) then
      match pyListGet md idx with
      | .error e => .error e
      | .ok r =>
        let entry : SearchResult :=
          { resource := r, similarity_score := score, search_rank := acc.length + 1 }
        if matchesFilters r f then searchLoop md f rest (acc ++ [entry])
        else searchLoop md f rest acc
    else searchLoop md f rest acc

/-- VectorStore.search_similar with the external FAISS retrieval abstracted as
the list of (score, index) pairs it returns (the theorems quantify over it):
empty index short-circuits to the empty list, the formatting loop runs inside a
try block whose handler returns the empty list, and the result is truncated to
top_k. -/
def search_similar (s : VectorStore) (retrieved : List (ℚ × Int)) (top_k : Nat)
    (f : Option SearchFilters) : List SearchResult :=
  if s.index.entries.length = 0 then []
  else
    match searchLoop s.metadata f retrieved [] with
    | .ok res => res.take top_k
    | .error _ => []

/-- Interaction row of the relational store as used by the rate_resource
endpoint (endpoints/resources.py). -/
structure DBInteraction where
  user_id : Nat
  resource_id : Nat
  interaction_type : String
  rating : Option ℚ := none
  review : Option String := none
deriving DecidableEq, Repr

/-- Relational state touched by rate_resource: the resource table and the
interaction table. -/
structure DBState where
  resources : List Resource
  interactions : List DBInteraction
deriving DecidableEq, Repr

/-- Update of the first existing rate interaction of this user for this
resource (the .first() row of the query). -/
def updateFirstRating (uid rid : Nat) (q : ℚ) (rev : Option String) :
    List DBInteraction → List DBInteraction
  | [] => []
  | i :: rest =>
    if i.user_id = uid ∧ i.resource_id = rid ∧ i.interaction_type = "rate" then
      { i with rating := some q, review := rev } :: rest
    else i :: updateFirstRating uid rid q rev rest

/-- The aggregation query of rate_resource: ratings of all rate interactions
for the resource whose rating is not NULL. -/
def rateRatings (inters : List DBInteraction) (rid : Nat) : List ℚ :=
  (inters.filter (fun i =>
    i.resource_id = rid ∧ i.interaction_type = "rate" ∧ i.rating.isSome)).filterMap
    (fun i => i.rating)

/-- Round half to even, the tie behaviour of the Python round builtin. -/
def roundHalfEven (q : ℚ) : ℤ :=
  let f := q.floor
  if q - f < 1 / 2 then f
  else if q - f > 1 / 2 then f + 1
  else if f % 2 = 0 then f else f + 1

/-- round(x, 2). -/
def round2 (q : ℚ) : ℚ := (roundHalfEven (q * 100) : ℚ) / 100

/-- The fresh rate interaction created when this user has no prior rating. -/
def freshRating (uid rid : Nat) (q : ℚ) (rev : Option String) : DBInteraction :=
  { user_id := uid, resource_id := rid, interaction_type := "rate",
    rating := some q, review := rev }

/-- Interaction table after rate_resource: the existing rate interaction of
this user for this resource is updated, or a new one is appended. -/
def newInteractions (st : DBState) (uid rid : Nat) (q : ℚ) (rev : Option String) :
    List DBInteraction :=
  if st.interactions.any (fun i =>
      i.user_id = uid ∧ i.resource_id = rid ∧ i.interaction_type = "rate") then
    updateFirstRating uid rid q rev st.interactions
  else st.interactions ++ [freshRating uid rid q rev]

/-- Resource table after the aggregate update of rate_resource: when the
resource has rate interactions with a rating, its rating becomes the rounded
mean and rating_count their number. -/
def updatedResources (st : DBState) (uid rid : Nat) (q : ℚ) (rev : Option String) :
    List Resource :=
  let rats := rateRatings (newInteractions st uid rid q rev) rid
  if rats ≠ [] then
    st.resources.map (fun r =>
      if r.id == some rid then
        { r with
          rating := round2 (rats.sum / (rats.length : ℚ)),
          rating_count := rats.length }
      else r)
  else st.resources

/-- rate_resource endpoint: a missing resource returns 404 without mutating;
otherwise the existing rate interaction of this user is updated or a new one is
appended, and the resource aggregate rating is recomputed as the rounded mean
of all its rate interactions with a rating, with rating_count their number. -/
def rate_resource (st : DBState) (uid rid : Nat) (q : ℚ) (rev : Option String) : DBState :=
  if st.resources.any (fun r => r.id == some rid) then
    { resources := updatedResources st uid rid q rev,
      interactions := newInteractions st uid rid q rev }
  else st

/-- Replaces a resource_id of 0 by an absent id, leaving everything else of the
interaction unchanged; used to state that id-0 interactions contribute nothing. -/
def clearZeroRid (i : Interaction) : Interaction :=
  if i.resource_id = some 0 then { i with resource_id := none } else i

/-!  Concrete fixtures used by witnesses and counterexamples. -/

/-- A fixed stand-in for the process-seeded Python string hash; every theorem
about the pipeline quantifies over the hash function, and the concrete runs
below never reach it (no stated preferences). -/
def pyhash0 : String → Nat := fun _ => 0

def exAlpha : Resource := { title := "alpha", rating := 5, id := some 0 }

def exBeta : Resource := { title := "beta", rating := 3, id := some 1 }

def exGamma : Resource := { title := "gamma", rating := 4, id := some 2 }

/-- The three-resource corpus with ratings [5, 3, 4] of the end-to-end scenario. -/
def exCorpus3 : List Resource := [exAlpha, exBeta, exGamma]

/-- A resource whose database id (1) differs from its row index (0). -/
def exIdOne : Resource := { title := "alpha", id := some 1 }

/-- A view interaction on resource id 1. -/
def exView1 : Interaction := { resource_id := some 1, interaction_type := some "view" }

/-- An interaction record without the resource_id key. -/
def exNoRid : Interaction := {}

/-- A resource whose title holds 21 distinct informative tokens. -/
def exWide : Resource :=
  { title := "zeb01 zeb02 zeb03 zeb04 zeb05 zeb06 zeb07 zeb08 zeb09 zeb10 zeb11 zeb12 zeb13 zeb14 zeb15 zeb16 zeb17 zeb18 zeb19 zeb20 zeb21" }

/-- A small store (dimension 2, flat index) for the vector-store scenarios. -/
def exStore0 : VectorStore := VectorStore.init 2 "Flat"

/-- A store that received two batches: add_resources with two resources, then
add_resources with one. -/
def exStore2 : VectorStore := add_resources (add_resources exStore0 [exAlpha, exBeta]) [exGamma]

def exBeginner : Resource := { title := "alpha", difficulty := some "beginner" }

def exAdvanced : Resource := { title := "beta", difficulty := some "advanced" }

/-- Store holding one beginner and one advanced resource. -/
def exStore6 : VectorStore := add_resources (VectorStore.init 2 "Flat") [exBeginner, exAdvanced]

/-- One-resource database (id 7) with no interactions. -/
def exDb0 : DBState := { resources := [{ id := some 7, title := "alpha" }], interactions := [] }

def exDb2 : DBState := rate_resource (rate_resource exDb0 1 7 3 none) 2 7 4 none

/-- The database after three distinct users rated resource 7 with 3, 4 and 5. -/
def exDb3 : DBState := rate_resource exDb2 3 7 5 none

section Theorems

/-- C3: for every candidate resource, with fewer than 5 recorded interactions
(in particular exactly 4) the hybrid score is 0.8 times the content-based score
plus 0.2 times the collaborative score, and with 5 or more (in particular
exactly 5) it is 0.4 times the content-based score plus 0.6 times the
collaborative score. -/
theorem C3_cold_start_weights (inters : List Interaction) (cbf cf : ℚ) :
    (inters.length = 4 → hybridCombine inters cbf cf = 0.8 * cbf + 0.2 * cf)
    ∧ (inters.length = 5 → hybridCombine inters cbf cf = 0.4 * cbf + 0.6 * cf)
    ∧ (inters.length < 5 → hybridCombine inters cbf cf = 0.8 * cbf + 0.2 * cf)
    ∧ (5 ≤ inters.length → hybridCombine inters cbf cf = 0.4 * cbf + 0.6 * cf) := by
  unfold hybridCombine
  refine ⟨fun h => ?_, fun h => ?_, fun h => ?_, fun h => ?_⟩
  · rw [if_pos (by omega)]
  · rw [if_neg (by omega)]
  · rw [if_pos h]
  · rw [if_neg (by omega)]

/-- Witness for C3 at histories of length exactly 4 and exactly 5. -/
theorem C3_cold_start_weights_witness :
    (List.replicate 4 ({} : Interaction)).length = 4
    ∧ hybridCombine (List.replicate 4 ({} : Interaction)) 1 (1 / 2)
        = 0.8 * 1 + 0.2 * (1 / 2)
    ∧ (List.replicate 5 ({} : Interaction)).length = 5
    ∧ hybridCombine (List.replicate 5 ({} : Interaction)) 1 (1 / 2)
        = 0.4 * 1 + 0.6 * (1 / 2) :=
  ⟨by simp,
   (C3_cold_start_weights (List.replicate 4 ({} : Interaction)) 1 (1 / 2)).1 (by simp),
   by simp,
   (C3_cold_start_weights (List.replicate 5 ({} : Interaction)) 1 (1 / 2)).2.1 (by simp)⟩

theorem add_resources_dimension (s : VectorStore) (rs : List Resource) :
    (add_resources s rs).dimension = s.dimension := by
  unfold add_resources
  dsimp only
  repeat' split
  all_goals rfl

theorem add_resources_index_type (s : VectorStore) (rs : List Resource) :
    (add_resources s rs).index_type = s.index_type := by
  unfold add_resources
  dsimp only
  repeat' split
  all_goals rfl

theorem add_resources_congr (d : Nat) (it : String) (idx : FaissIndex)
    (v v2 : Option (List (List ℚ))) (md md2 : List Resource)
    (m : List (Nat × Option Nat)) (rs : List Resource) :
    add_resources ⟨d, it, idx, v, md, m⟩ rs = add_resources ⟨d, it, idx, v2, md2, m⟩ rs := rfl

/-- C7: rebuilding the index twice in a row with the same corpus is idempotent;
rebuild resets metadata, id_mapping and the index and the re-added state is a
function of the corpus, the dimension and the index type only, which rebuild
preserves.  In the rational model the vectors are equal exactly. -/
theorem C7_rebuild_index_idempotent (s : VectorStore) (rs : List Resource) :
    rebuild_index (rebuild_index s rs) rs = rebuild_index s rs := by
  cases s with
  | mk d it idx v md m =>
    calc rebuild_index (rebuild_index ⟨d, it, idx, v, md, m⟩ rs) rs
        = add_resources ⟨(rebuild_index ⟨d, it, idx, v, md, m⟩ rs).dimension,
            (rebuild_index ⟨d, it, idx, v, md, m⟩ rs).index_type,
            initIndex (rebuild_index ⟨d, it, idx, v, md, m⟩ rs).index_type,
            (rebuild_index ⟨d, it, idx, v, md, m⟩ rs).vectors, [], []⟩ rs := rfl
      _ = add_resources ⟨d, it, initIndex it,
            (rebuild_index ⟨d, it, idx, v, md, m⟩ rs).vectors, [], []⟩ rs := by
            rw [show (rebuild_index (⟨d, it, idx, v, md, m⟩ : VectorStore) rs).dimension = d from
                add_resources_dimension _ rs,
              show (rebuild_index (⟨d, it, idx, v, md, m⟩ : VectorStore) rs).index_type = it from
                add_resources_index_type _ rs]
      _ = add_resources ⟨d, it, initIndex it, v, [], []⟩ rs := add_resources_congr ..
      _ = rebuild_index ⟨d, it, idx, v, md, m⟩ rs := rfl

theorem profileLoop_cons (features : List (List ℚ)) (i : Interaction)
    (rest : List Interaction) (v : List ℚ) :
    profileLoop features (i :: rest) v =
      (match i.resource_id with
       | some rid =>
         if rid ≠ 0 ∧ rid < features.length then
           match addScaledRow v (features.getD rid [])
               (recencyWeight i.daysOld * typeWeight (i.interaction_type.getD "view")) with
           | .ok v2 => profileLoop features rest v2
           | .error e => .error e
         else profileLoop features rest v
       | none => profileLoop features rest v) := rfl

theorem profileLoop_cons_zero (features : List (List ℚ)) (i : Interaction)
    (rest : List Interaction) (v : List ℚ) (h : i.resource_id = some 0) :
    profileLoop features (i :: rest) v = profileLoop features rest v := by
  rw [profileLoop_cons, h]
  dsimp only
  rw [if_neg (by simp)]

theorem profileLoop_clearZero (features : List (List ℚ)) (l : List Interaction) (v : List ℚ) :
    profileLoop features (l.map clearZeroRid) v = profileLoop features l v := by
  induction l generalizing v with
  | nil => rfl
  | cons i rest ih =>
    by_cases h : i.resource_id = some 0
    · rw [List.map_cons, show clearZeroRid i = { i with resource_id := none } from by
        unfold clearZeroRid; rw [if_pos h]]
      rw [profileLoop_cons_zero features i rest v h]
      rw [profileLoop_cons]
      exact ih v
    · rw [List.map_cons, show clearZeroRid i = i from by unfold clearZeroRid; rw [if_neg h],
        profileLoop_cons, profileLoop_cons]
      cases hr : i.resource_id with
      | none => exact ih v
      | some rid =>
        dsimp only
        by_cases hg : rid ≠ 0 ∧ rid < features.length
        · rw [if_pos hg, if_pos hg]
          cases addScaledRow v (features.getD rid [])
              (recencyWeight i.daysOld * typeWeight (i.interaction_type.getD "view")) with
          | ok v2 => exact ih v2
          | error e => rfl
        · rw [if_neg hg, if_neg hg]
          exact ih v

theorem lastFifty_map_clearZero (l : List Interaction) :
    lastFifty (l.map clearZeroRid) = (lastFifty l).map clearZeroRid := by
  unfold lastFifty
  rw [List.length_map, List.map_drop]

/-- C10: an interaction whose resource_id is 0 contributes nothing to the user
profile, even when row 0 of the feature matrix exists: one loop step on such an
interaction is the identity, and replacing every id-0 interaction by an
id-less one leaves the whole profile unchanged. -/
theorem C10_zero_id_no_contribution (pyhash : String → Nat) (features : List (List ℚ))
    (ud : UserData) (inters rest : List Interaction) (i : Interaction) (v : List ℚ) :
    (i.resource_id = some 0 → profileLoop features (i :: rest) v = profileLoop features rest v)
    ∧ createUserProfile pyhash features ud inters
      = createUserProfile pyhash features ud (inters.map clearZeroRid) := by
  constructor
  · exact profileLoop_cons_zero features i rest v
  · unfold createUserProfile profileCore
    simp only [lastFifty_map_clearZero, profileLoop_clearZero]

/-- Witness for C10: with a two-column feature matrix whose row 0 exists, a
single id-0 view interaction leaves the loop state unchanged. -/
theorem C10_zero_id_no_contribution_witness :
    (0 < ([[1, 1], [2, 2]] : List (List ℚ)).length)
    ∧ profileLoop [[1, 1], [2, 2]]
        [{ resource_id := some 0, interaction_type := some "view" }] [0, 0]
      = profileLoop [[1, 1], [2, 2]] [] [0, 0] :=
  ⟨by simp,
   (C10_zero_id_no_contribution pyhash0 [[1, 1], [2, 2]] {} [] []
     { resource_id := some 0, interaction_type := some "view" } [0, 0]).1 rfl⟩

theorem updateFirstRating_mem (uid rid : Nat) (q : ℚ) (rev : Option String)
    (l : List DBInteraction)
    (h : l.any (fun i =>
      i.user_id = uid ∧ i.resource_id = rid ∧ i.interaction_type = "rate") = true) :
    ∃ j ∈ updateFirstRating uid rid q rev l,
      j.resource_id = rid ∧ j.interaction_type = "rate" ∧ j.rating = some q := by
  induction l with
  | nil => simp at h
  | cons i rest ih =>
    unfold updateFirstRating
    by_cases hc : i.user_id = uid ∧ i.resource_id = rid ∧ i.interaction_type = "rate"
    · rw [if_pos hc]
      exact ⟨{ i with rating := some q, review := rev }, List.mem_cons_self _ _,
        hc.2.1, hc.2.2, rfl⟩
    · rw [if_neg hc]
      have h2 : rest.any (fun i =>
          i.user_id = uid ∧ i.resource_id = rid ∧ i.interaction_type = "rate") = true := by
        rcases List.any_eq_true.mp h with ⟨j, hj, hpj⟩
        rcases List.mem_cons.mp hj with hsame | hj2
        · exact absurd (of_decide_eq_true (hsame ▸ hpj)) hc
        · exact List.any_eq_true.mpr ⟨j, hj2, hpj⟩
      obtain ⟨j, hj, hp⟩ := ih h2
      exact ⟨j, List.mem_cons_of_mem _ hj, hp⟩

theorem rateRatings_ne_nil (l : List DBInteraction) (rid : Nat) (j : DBInteraction)
    (hj : j ∈ l) (h1 : j.resource_id = rid) (h2 : j.interaction_type = "rate")
    (h3 : j.rating.isSome = true) : rateRatings l rid ≠ [] := by
  intro hE
  obtain ⟨q, hq⟩ := Option.isSome_iff_exists.mp h3
  have hjf : j ∈ l.filter (fun i =>
      i.resource_id = rid ∧ i.interaction_type = "rate" ∧ i.rating.isSome) :=
    List.mem_filter.mpr ⟨hj, by simp [h1, h2, h3]⟩
  have hmem : q ∈ rateRatings l rid := by
    unfold rateRatings
    exact List.mem_filterMap.mpr ⟨j, hjf, hq⟩
  rw [hE] at hmem
  exact absurd hmem (List.not_mem_nil q)

theorem rate_resource_interactions (st : DBState) (uid rid : Nat) (q : ℚ)
    (rev : Option String) (h : st.resources.any (fun r => r.id == some rid) = true) :
    (rate_resource st uid rid q rev).interactions = newInteractions st uid rid q rev := by
  unfold rate_resource
  rw [if_pos h]

theorem rate_resource_resources (st : DBState) (uid rid : Nat) (q : ℚ)
    (rev : Option String) (h : st.resources.any (fun r => r.id == some rid) = true) :
    (rate_resource st uid rid q rev).resources = updatedResources st uid rid q rev := by
  unfold rate_resource
  rw [if_pos h]

theorem newInteractions_has_rating (st : DBState) (uid rid : Nat) (q : ℚ)
    (rev : Option String) :
    ∃ j ∈ newInteractions st uid rid q rev,
      j.resource_id = rid ∧ j.interaction_type = "rate" ∧ j.rating = some q := by
  unfold newInteractions
  by_cases hc : st.interactions.any (fun i =>
      i.user_id = uid ∧ i.resource_id = rid ∧ i.interaction_type = "rate") = true
  · rw [if_pos hc]
    exact updateFirstRating_mem uid rid q rev _ hc
  · rw [if_neg hc]
    exact ⟨freshRating uid rid q rev,
      List.mem_append_right _ (List.mem_singleton.mpr rfl), rfl, rfl, rfl⟩

/-- C9: after recording a rating for an existing resource, the resource record
holds the arithmetic mean of all its rate interactions rounded to 2 decimals
as its rating and their number as its rating_count. -/
theorem C9_rating_mean (st : DBState) (uid rid : Nat) (q : ℚ) (rev : Option String)
    (hres : st.resources.any (fun r => r.id == some rid) = true) :
    ∀ r ∈ (rate_resource st uid rid q rev).resources, r.id = some rid →
      r.rating = round2 ((rateRatings (rate_resource st uid rid q rev).interactions rid).sum
          / ((rateRatings (rate_resource st uid rid q rev).interactions rid).length : ℚ))
      ∧ r.rating_count
        = (rateRatings (rate_resource st uid rid q rev).interactions rid).length := by
  intro r hr hid
  rw [rate_resource_interactions st uid rid q rev hres]
  rw [rate_resource_resources st uid rid q rev hres] at hr
  obtain ⟨j, hj, hj1, hj2, hj3⟩ := newInteractions_has_rating st uid rid q rev
  have hne : rateRatings (newInteractions st uid rid q rev) rid ≠ [] :=
    rateRatings_ne_nil _ rid j hj hj1 hj2 (by rw [hj3]; rfl)
  unfold updatedResources at hr
  dsimp only at hr
  rw [if_pos hne] at hr
  obtain ⟨r0, hr0, hfr⟩ := List.mem_map.mp hr
  by_cases hb : (r0.id == some rid) = true
  · rw [if_pos hb] at hfr
    rw [← hfr]
    exact ⟨rfl, rfl⟩
  · rw [if_neg hb] at hfr
    rw [← hfr] at hid
    exact absurd (beq_iff_eq.mpr hid) hb

/-- Witness for C9: three users rate resource 7 with 3, 4 and 5; the stored
rating is 4 and the rating_count is 3. -/
theorem C9_rating_mean_witness :
    (∀ r ∈ (rate_resource exDb2 3 7 5 none).resources, r.id = some 7 →
      r.rating = round2 ((rateRatings (rate_resource exDb2 3 7 5 none).interactions 7).sum
          / ((rateRatings (rate_resource exDb2 3 7 5 none).interactions 7).length : ℚ))
      ∧ r.rating_count
        = (rateRatings (rate_resource exDb2 3 7 5 none).interactions 7).length)
    ∧ exDb3.resources.map (fun r => (r.rating, r.rating_count)) = [(4, 3)] :=
  ⟨C9_rating_mean exDb2 3 7 5 none (by with_unfolding_all decide),
   by with_unfolding_all decide⟩

theorem dictInsert_not_mem (m : List (Nat × Option Nat)) (k : Nat) (v : Option Nat)
    (h : ∀ p ∈ m, p.1 < k) : dictInsert m k v = m ++ [(k, v)] := by
  unfold dictInsert
  have hfalse : m.any (fun p => p.1 = k) = false := by
    rw [List.any_eq_false]
    intro p hp
    simpa using Nat.ne_of_lt (h p hp)
  rw [if_neg (by simp [hfalse])]

theorem addLoop_cons (dim : Nat) (r : Resource) (rest : List Resource)
    (vecs : List (List ℚ)) (md : List Resource) (m : List (Nat × Option Nat)) :
    addLoop dim (r :: rest) vecs md m
      = addLoop dim rest (vecs ++ [createResourceVector dim r]) (md ++ [r])
          (dictInsert m ((md ++ [r]).length - 1) r.id) := rfl

theorem addLoop_sync (dim : Nat) (rs : List Resource) :
    ∀ (vecs : List (List ℚ)) (md : List Resource) (m : List (Nat × Option Nat)),
    (∀ p ∈ m, p.1 < md.length) → m.length = md.length → vecs.length = md.length →
    (∀ p ∈ (addLoop dim rs vecs md m).2.2, p.1 < (addLoop dim rs vecs md m).2.1.length)
    ∧ (addLoop dim rs vecs md m).2.2.length = (addLoop dim rs vecs md m).2.1.length
    ∧ (addLoop dim rs vecs md m).1.length = (addLoop dim rs vecs md m).2.1.length := by
  induction rs with
  | nil => exact fun vecs md m h1 h2 h3 => ⟨h1, h2, h3⟩
  | cons r rest ih =>
    intro vecs md m h1 h2 h3
    rw [addLoop_cons]
    have hkey : (md ++ [r]).length - 1 = md.length := by simp
    rw [hkey, dictInsert_not_mem m md.length r.id h1]
    apply ih
    · intro p hp
      rcases List.mem_append.mp hp with hold | hnew
      · have := h1 p hold
        simp only [List.length_append, List.length_singleton]
        omega
      · rw [List.mem_singleton.mp hnew]
        simp
    · simp [h2]
    · simp [h3]

theorem add_resources_vectors (s : VectorStore) (rs : List Resource) :
    (add_resources s rs).vectors = some (addLoop s.dimension rs [] [] s.id_mapping).1 := by
  unfold add_resources
  dsimp only
  repeat' split
  all_goals rfl

theorem add_resources_metadata (s : VectorStore) (rs : List Resource) :
    (add_resources s rs).metadata = (addLoop s.dimension rs [] [] s.id_mapping).2.1 := by
  unfold add_resources
  dsimp only
  repeat' split
  all_goals rfl

theorem add_resources_id_mapping (s : VectorStore) (rs : List Resource) :
    (add_resources s rs).id_mapping = (addLoop s.dimension rs [] [] s.id_mapping).2.2 := by
  unfold add_resources
  dsimp only
  repeat' split
  all_goals rfl

theorem add_resources_invariant (s : VectorStore) (rs : List Resource)
    (h : s.id_mapping = []) : storeInvariant (add_resources s rs) := by
  have base := addLoop_sync s.dimension rs [] [] s.id_mapping
    (by rw [h]; intro p hp; simp at hp) (by rw [h]; rfl) rfl
  obtain ⟨_, k2, k3⟩ := base
  unfold storeInvariant
  rw [add_resources_vectors, add_resources_metadata, add_resources_id_mapping]
  exact ⟨by simpa using k3, k2.symm⟩

theorem rebuild_index_invariant (s : VectorStore) (rs : List Resource) :
    storeInvariant (rebuild_index s rs) := by
  unfold rebuild_index
  exact add_resources_invariant _ rs rfl

/-- C5 (amended): the length invariant holds after every rebuild_index, after
update_resource and delete_resource (no-ops), and after add_resources on a
store whose id_mapping is empty (a fresh store, or within rebuild); a second
add_resources on a store already holding more slots violates it, because
vectors and metadata are replaced while id_mapping is merged. -/
theorem C5_invariant_amended (s : VectorStore) (rs : List Resource) (rid : Nat)
    (rd : Resource) :
    storeInvariant (rebuild_index s rs)
    ∧ (storeInvariant s → storeInvariant (update_resource s rid rd))
    ∧ (storeInvariant s → storeInvariant (delete_resource s rid))
    ∧ (s.id_mapping = [] → storeInvariant (add_resources s rs)) :=
  ⟨rebuild_index_invariant s rs, fun h => h, fun h => h, add_resources_invariant s rs⟩

/-- Witness for C5 (amended): the invariant holds after rebuilding the corrupted
store and after the first add_resources on a fresh store. -/
theorem C5_invariant_amended_witness :
    storeInvariant (rebuild_index exStore2 [exAlpha])
    ∧ exStore0.id_mapping = []
    ∧ storeInvariant (add_resources exStore0 [exAlpha, exBeta]) :=
  ⟨(C5_invariant_amended exStore2 [exAlpha] 0 exAlpha).1, rfl,
   (C5_invariant_amended exStore0 [exAlpha, exBeta] 0 exAlpha).2.2.2 rfl⟩

/-- Counterexample for C5 as stated: after add_resources of a two-resource batch
followed by add_resources of a one-resource batch, the store holds 1 vector and
1 metadata row but 2 id_mapping entries. -/
theorem C5_counterexample :
    ¬ storeInvariant exStore2
    ∧ ((exStore2.vectors.getD []).length, exStore2.metadata.length,
        exStore2.id_mapping.length) = (1, 1, 2) := by
  constructor
  · unfold storeInvariant
    with_unfolding_all decide
  · with_unfolding_all decide

theorem searchLoop_cons (md : List Resource) (f : Option SearchFilters)
    (score : ℚ) (idx : Int) (rest : List (ℚ × Int)) (acc : List SearchResult) :
    searchLoop md f ((score, idx) :: rest) acc
      = (if idx ≠ -1 ∧ idx < (md.length : Int) then
          match pyListGet md idx with
          | .error e => .error e
          | .ok r =>
            if matchesFilters r f then
              searchLoop md f rest
                (acc ++ [{ resource := r, similarity_score := score, search_rank := acc.length + 1 }])
            else searchLoop md f rest acc
        else searchLoop md f rest acc) := rfl

theorem searchLoop_filtered (md : List Resource) (f : Option SearchFilters) :
    ∀ (ret : List (ℚ × Int)) (acc res : List SearchResult),
    (∀ r ∈ acc, matchesFilters r.resource f = true) →
    searchLoop md f ret acc = .ok res →
    ∀ r ∈ res, matchesFilters r.resource f = true := by
  intro ret
  induction ret with
  | nil =>
    intro acc res hacc hok
    cases hok
    exact hacc
  | cons p rest ih =>
    intro acc res hacc hok
    obtain ⟨score, idx⟩ := p
    rw [searchLoop_cons] at hok
    by_cases hc : idx ≠ -1 ∧ idx < (md.length : Int)
    · rw [if_pos hc] at hok
      cases hg : pyListGet md idx with
      | error e =>
        rw [hg] at hok
        exact absurd hok (by simp)
      | ok r =>
        rw [hg] at hok
        dsimp only at hok
        by_cases hm : matchesFilters r f = true
        · rw [if_pos hm] at hok
          refine ih _ res ?_ hok
          intro x hx
          rcases List.mem_append.mp hx with h1 | h2
          · exact hacc x h1
          · rw [List.mem_singleton.mp h2]
            exact hm
        · rw [if_neg hm] at hok
          exact ih _ res hacc hok
    · rw [if_neg hc] at hok
      exact ih _ res hacc hok

/-- C6: every resource returned by search_similar satisfies all provided
filters (filtering happens after retrieval, inside the result loop), the
result has at most top_k entries, and in particular a difficulty filter is
matched exactly by every returned resource. -/
theorem C6_filter_correctness (s : VectorStore) (retrieved : List (ℚ × Int))
    (top_k : Nat) (f : Option SearchFilters) :
    (search_similar s retrieved top_k f).length ≤ top_k
    ∧ (∀ r ∈ search_similar s retrieved top_k f, matchesFilters r.resource f = true)
    ∧ (∀ fl d, f = some fl → fl.difficulty = some d → d ≠ "" →
        ∀ r ∈ search_similar s retrieved top_k f, r.resource.difficulty = some d) := by
  have hfilters : ∀ r ∈ search_similar s retrieved top_k f,
      matchesFilters r.resource f = true := by
    unfold search_similar
    split
    · intro r hr
      simp at hr
    · cases hloop : searchLoop s.metadata f retrieved [] with
      | ok res =>
        intro r hr
        exact searchLoop_filtered s.metadata f retrieved [] res
          (by intro x hx; simp at hx) hloop r (List.take_subset top_k res hr)
      | error e =>
        intro r hr
        simp at hr
  refine ⟨?_, hfilters, ?_⟩
  · unfold search_similar
    split
    · simp
    · cases searchLoop s.metadata f retrieved [] with
      | ok res => exact List.length_take_le top_k res
      | error e => simp
  · intro fl d hf hd hne r hr
    have hm := hfilters r hr
    rw [hf] at hm
    simp only [matchesFilters, Bool.and_eq_true] at hm
    have hdiff := hm.1.1.1.1.1.2
    rw [hd] at hdiff
    rcases Bool.or_eq_true .. |>.mp hdiff with h1 | h2
    · exact absurd (by simpa using h1) hne
    · exact beq_iff_eq.mp h2

/-- Witness for C6: a store with one beginner and one advanced resource, both
retrieved, and a beginner difficulty filter returns exactly the beginner one. -/
theorem C6_filter_correctness_witness :
    ((search_similar exStore6 [(1, 0), (1, 1)] 2
        (some { difficulty := some "beginner" })).length ≤ 2
      ∧ (∀ r ∈ search_similar exStore6 [(1, 0), (1, 1)] 2
          (some { difficulty := some "beginner" }),
          matchesFilters r.resource (some { difficulty := some "beginner" }) = true)
      ∧ (∀ fl d, (some { difficulty := some "beginner" } : Option SearchFilters) = some fl →
          fl.difficulty = some d → d ≠ "" →
          ∀ r ∈ search_similar exStore6 [(1, 0), (1, 1)] 2
            (some { difficulty := some "beginner" }), r.resource.difficulty = some d))
    ∧ (search_similar exStore6 [(1, 0), (1, 1)] 2
        (some { difficulty := some "beginner" })).map (fun r => r.resource.difficulty)
      = [some "beginner"] :=
  ⟨C6_filter_correctness exStore6 [(1, 0), (1, 1)] 2 (some { difficulty := some "beginner" }),
   by with_unfolding_all decide⟩

theorem popGeRel_total : ∀ a b : Resource, popGeRel a b ∨ popGeRel b a := by
  intro a b
  unfold popGeRel
  rcases lt_trichotomy a.rating b.rating with h | h | h
  · exact Or.inr (Or.inl h)
  · rcases Nat.le_total b.rating_count a.rating_count with hc | hc
    · exact Or.inl (Or.inr ⟨h, hc⟩)
    · exact Or.inr (Or.inr ⟨h.symm, hc⟩)
  · exact Or.inl (Or.inl h)

instance : IsTotal Resource popGeRel := ⟨popGeRel_total⟩

instance : IsTrans Resource popGeRel := by
  constructor
  intro a b c hab hbc
  unfold popGeRel at hab hbc ⊢
  rcases hab with h1 | ⟨e1, c1⟩ <;> rcases hbc with h2 | ⟨e2, c2⟩
  · exact Or.inl (lt_trans h2 h1)
  · exact Or.inl (e2 ▸ h1)
  · exact Or.inl (e1.symm ▸ h2)
  · exact Or.inr ⟨e1.trans e2, le_trans c2 c1⟩

/-- C2: whenever the body of get_recommendations raises (modelled by the error
value of the core), the caller receives the popularity fallback: all resources
sorted by rating descending then rating_count descending, truncated to the
first limit entries, with score rating/5 and the fixed reason.  No exception
propagates: getRecommendations is a total function whose error branch is
exactly this fallback. -/
theorem C2_fallback_on_error (pyhash : String → Nat)
    (storedFeatures : Option (List (List ℚ))) (uid : Nat) (ud : UserData)
    (inters : List Interaction) (resources : List Resource) (limit : Nat) (e : Unit)
    (herr : getRecommendationsCore pyhash (engineFeatures storedFeatures resources)
        uid ud inters resources limit = .error e) :
    ∃ sorted : List Resource, sorted.Perm resources ∧ List.Sorted popGeRel sorted
      ∧ getRecommendations pyhash storedFeatures uid ud inters resources limit
        = (sorted.take limit).map (fun r =>
            { resource := r, score := r.rating / 5, reason := "Popular resource" }) := by
  refine ⟨List.insertionSort popGeRel resources, List.perm_insertionSort popGeRel resources,
    List.sorted_insertionSort popGeRel resources, ?_⟩
  unfold getRecommendations
  rw [herr]
  rfl

def exLowHigh : List Resource := [{ title := "alpha", rating := 1 }, { title := "beta", rating := 5 }]

/-- Witness for C2: an interaction record without the resource_id key makes the
core raise; the output is the two resources in rating order with the fallback
score and reason. -/
theorem C2_fallback_on_error_witness :
    (∃ sorted : List Resource, sorted.Perm exLowHigh ∧ List.Sorted popGeRel sorted
      ∧ getRecommendations pyhash0 (some []) 1 {} [exNoRid] exLowHigh 10
        = (sorted.take 10).map (fun r =>
            { resource := r, score := r.rating / 5, reason := "Popular resource" }))
    ∧ (getRecommendations pyhash0 (some []) 1 {} [exNoRid] exLowHigh 10).map
        (fun rec => (rec.resource.rating, rec.reason))
      = [(5, "Popular resource"), (1, "Popular resource")] :=
  ⟨C2_fallback_on_error pyhash0 (some []) 1 {} [exNoRid] exLowHigh 10 ()
      (by with_unfolding_all rfl),
   by with_unfolding_all decide⟩

theorem interactedIdsE_ok (inters : List Interaction) (ids : List Nat)
    (h : interactedIdsE inters = .ok ids) : ids = interactedIdList inters := by
  induction inters generalizing ids with
  | nil =>
    cases h
    rfl
  | cons i rest ih =>
    unfold interactedIdsE at h
    cases hr : i.resource_id with
    | none =>
      rw [hr] at h
      exact absurd h (by simp)
    | some rid =>
      rw [hr] at h
      cases he : interactedIdsE rest with
      | ok ids2 =>
        rw [he] at h
        cases h
        rw [ih ids2 he]
        simp [interactedIdList, List.filterMap_cons, hr]
      | error e =>
        rw [he] at h
        exact absurd h (by simp)

/-- C1 (amended): on the successful path, every returned recommendation comes
from a resource row index outside the interacted resource-id set (the candidate
set is exactly the row indices not among the interaction resource ids), and
consequently no interacted resource is returned whenever every resource's id
equals its row index.  As stated for arbitrary ids the claim fails, because the
exclusion compares row positions with database ids. -/
theorem recs_from_candidates (resources : List Resource) (ids : List Nat) (limit : Nat)
    (score : Nat → ℚ) (reason : Nat → String) :
    ∀ rec ∈ ((List.insertionSort scoreGe (((List.range resources.length).filter
        (fun i => !(ids.contains i))).map (fun rid => (rid, score rid)))).take
          limit).filterMap
        (fun p => (resources.get? p.1).map (fun r =>
          ({ resource := r, score := p.2, reason := reason p.1 } : Recommendation))),
      ∃ i, i < resources.length ∧ resources.get? i = some rec.resource
        ∧ ids.contains i = false := by
  intro rec hrec
  obtain ⟨p, hp, hsome⟩ := List.mem_filterMap.mp hrec
  cases hg : resources.get? p.1 with
  | none =>
    rw [hg] at hsome
    exact absurd hsome (by simp)
  | some r =>
    rw [hg] at hsome
    simp only [Option.map_some'] at hsome
    cases hsome
    have hp2 := List.take_subset _ _ hp
    have hp3 := (List.perm_insertionSort scoreGe _).subset hp2
    obtain ⟨rid, hridmem, hpe⟩ := List.mem_map.mp hp3
    have hfilter := List.mem_filter.mp hridmem
    have hfst : p.1 = rid := by rw [← hpe]
    refine ⟨p.1, ?_, hg, ?_⟩
    · rw [hfst]
      exact List.mem_range.mp hfilter.1
    · rw [hfst]
      simpa using hfilter.2

theorem C1_candidate_exclusion (pyhash : String → Nat) (features : List (List ℚ))
    (uid : Nat) (ud : UserData) (inters : List Interaction) (resources : List Resource)
    (limit : Nat) (out : List Recommendation)
    (hok : getRecommendationsCore pyhash features uid ud inters resources limit = .ok out) :
    (∀ rec ∈ out, ∃ i, i < resources.length ∧ resources.get? i = some rec.resource
        ∧ (interactedIdList inters).contains i = false)
    ∧ ((∀ i r0, resources.get? i = some r0 → r0.id = some i) →
        ∀ rec ∈ out, ∀ j, rec.resource.id = some j →
          (interactedIdList inters).contains j = false) := by
  unfold getRecommendationsCore at hok
  cases hE : interactedIdsE inters with
  | error e =>
    rw [hE] at hok
    exact absurd hok (by simp)
  | ok ids =>
    rw [hE] at hok
    dsimp only at hok
    cases hok
    have hids := interactedIdsE_ok inters ids hE
    have hmain := recs_from_candidates resources ids limit
      (fun rid => hybridCombine inters
        (contentScore features (createUserProfile pyhash features ud inters) rid)
        (collaborativeScore uid inters rid))
      (fun rid => recommendationReason
        (contentScore features (createUserProfile pyhash features ud inters) rid)
        (collaborativeScore uid inters rid))
    constructor
    · intro rec hrec
      obtain ⟨i, h1, h2, h3⟩ := hmain rec hrec
      exact ⟨i, h1, h2, by rw [← hids]; exact h3⟩
    · intro hid rec hrec j hj
      obtain ⟨i, h1, h2, h3⟩ := hmain rec hrec
      have hideq : rec.resource.id = some i := hid i rec.resource h2
      rw [hj] at hideq
      rw [Option.some.inj hideq, ← hids]
      exact h3

def c1Out : List Recommendation :=
  [{ resource := exAlpha, score := 0.1,
     reason := "Recommended based on your profile and community preferences" }]

/-- Witness for C1 (amended) on a one-resource corpus whose id equals its row
index and an empty history. -/
theorem C1_candidate_exclusion_witness :
    (∀ rec ∈ c1Out, ∃ i, i < ([exAlpha] : List Resource).length
        ∧ [exAlpha].get? i = some rec.resource
        ∧ (interactedIdList []).contains i = false)
    ∧ ((∀ i r0, ([exAlpha] : List Resource).get? i = some r0 → r0.id = some i) →
        ∀ rec ∈ c1Out, ∀ j, rec.resource.id = some j →
          (interactedIdList []).contains j = false) :=
  C1_candidate_exclusion pyhash0 (createResourceFeatures [exAlpha]) 1 {} [] [exAlpha] 10
    c1Out (by with_unfolding_all rfl)

/-- Counterexample for C1 as stated: the user has a recorded view interaction
on resource id 1, the corpus holds exactly that resource at row 0, and
get_recommendations returns it anyway (row 0 is not in the interacted id set
even though the resource id 1 is). -/
theorem C1_counterexample :
    (getRecommendations pyhash0 none 1 {} [exView1] [exIdOne] 10).map
      (fun rec => rec.resource.id) = [some 1]
    ∧ interactedIdList [exView1] = [1] := by
  constructor
  · with_unfolding_all decide
  · rfl

theorem normSq_replicate_zero (n : Nat) : normSq (List.replicate n 0) = 0 := by
  unfold normSq dotQ
  induction n with
  | zero => rfl
  | succ k _ => simp [List.replicate_succ]

theorem cosineSimQ_zero_left (n : Nat) (v : List ℚ) :
    cosineSimQ (List.replicate n 0) v = 0 := by
  unfold cosineSimQ
  rw [if_pos (Or.inl (normSq_replicate_zero n))]

theorem createUserProfile_blank (pyhash : String → Nat) (features : List (List ℚ))
    (ud : UserData) (hd : truthyStr ud.preferred_difficulty = false)
    (hl : truthyStr ud.preferred_learning_style = false) :
    createUserProfile pyhash features ud [] = List.replicate 20 0 := by
  unfold createUserProfile profileCore
  rw [hd, hl]
  rfl

theorem contentScore_blank (features : List (List ℚ)) (L : Nat)
    (hrect : ∀ row ∈ features, row.length = L) (rid : Nat) (hrid : rid < features.length) :
    contentScore features (List.replicate 20 0) rid = if 20 = L then 0 else 0.1 := by
  unfold contentScore
  rw [if_pos hrid]
  have hmem : features.getD rid [] ∈ features := by
    rw [List.getD_eq_getElem features [] hrid]
    exact List.getElem_mem hrid
  have hrow : (features.getD rid []).length = L := hrect _ hmem
  rw [List.length_replicate, hrow]
  by_cases h20 : (20 : Nat) = L
  · rw [if_pos h20, if_pos h20, cosineSimQ_zero_left]
  · rw [if_neg h20, if_neg h20]

theorem pairwiseOfForall {α : Type} (R : α → α → Prop) (h : ∀ a b, R a b) :
    ∀ l : List α, l.Pairwise R := by
  intro l
  induction l with
  | nil => exact List.Pairwise.nil
  | cons a l ih => exact List.Pairwise.cons (fun b _ => h a b) ih

theorem range_filterMap_get (xs : List Resource) :
    ∀ k : Nat, (List.range k).filterMap (fun i => xs.get? i) = xs.take k := by
  intro k
  induction k with
  | zero => simp
  | succ n ih =>
    rw [List.range_succ, List.filterMap_append, ih, List.take_succ]
    congr 1
    cases h : xs.get? n with
    | none =>
      rw [List.get?_eq_getElem?] at h
      simp [List.filterMap_cons, h]
    | some r =>
      rw [List.get?_eq_getElem?] at h
      simp [List.filterMap_cons, h]

theorem filterMap_out_map_resource (resources : List Resource) (K : ℚ)
    (reason : Nat → String) (l : List Nat) :
    ((l.map (fun rid => (rid, K))).filterMap (fun p => (resources.get? p.1).map (fun r =>
      ({ resource := r, score := p.2, reason := reason p.1 } : Recommendation)))).map
      (fun rec => rec.resource)
    = l.filterMap (fun i => resources.get? i) := by
  induction l with
  | nil => rfl
  | cons i l ih =>
    rw [List.map_cons, List.filterMap_cons, List.filterMap_cons]
    dsimp only
    cases h : resources.get? i with
    | none =>
      dsimp only [Option.map_none']
      exact ih
    | some r =>
      dsimp only [Option.map_some']
      rw [List.map_cons, ih]

/-- C8 (amended): for a user with no interactions and no stated preferences,
all candidates receive the same hybrid score, the stable descending sort leaves
them in place, and get_recommendations returns the first limit resources in
ORIGINAL corpus order, not in rating order; the popularity fallback is not
taken because no exception occurs.  The statement quantifies over any
rectangular feature matrix with one row per resource, which covers the matrix
the engine builds. -/
theorem C8_new_user_original_order (pyhash : String → Nat) (features : List (List ℚ))
    (L uid : Nat) (ud : UserData) (resources : List Resource) (limit : Nat)
    (hlen : features.length = resources.length)
    (hrect : ∀ row ∈ features, row.length = L)
    (hd : truthyStr ud.preferred_difficulty = false)
    (hl : truthyStr ud.preferred_learning_style = false) :
    (getRecommendations pyhash (some features) uid ud [] resources limit).map
      (fun rec => rec.resource) = resources.take limit := by
  unfold getRecommendations getRecommendationsCore
  dsimp only [engineFeatures]
  rw [createUserProfile_blank pyhash features ud hd hl]
  dsimp only [interactedIdsE]
  have hfilt : (List.range resources.length).filter
      (fun i => !(([] : List Nat).contains i)) = List.range resources.length := by
    simp
  rw [hfilt]
  have hmapc : (List.range resources.length).map (fun rid =>
      (rid, hybridCombine [] (contentScore features (List.replicate 20 0) rid)
        (collaborativeScore uid [] rid)))
      = (List.range resources.length).map (fun rid =>
        (rid, hybridCombine [] (if 20 = L then 0 else 0.1) 0.1)) := by
    apply List.map_congr_left
    intro rid hrid
    rw [contentScore_blank features L hrect rid
      (by rw [hlen]; exact List.mem_range.mp hrid)]
    rfl
  rw [hmapc]
  have hsorted : List.Sorted scoreGe ((List.range resources.length).map (fun rid =>
      (rid, hybridCombine [] (if 20 = L then 0 else 0.1) 0.1))) := by
    unfold List.Sorted
    rw [List.pairwise_map]
    exact pairwiseOfForall _ (fun a b => le_refl _) _
  rw [List.Sorted.insertionSort_eq hsorted]
  rw [← List.map_take]
  rw [filterMap_out_map_resource resources
    (hybridCombine [] (if 20 = L then 0 else 0.1) 0.1)
    (fun rid => recommendationReason (contentScore features (List.replicate 20 0) rid)
      (collaborativeScore uid [] rid))]
  rw [List.take_range, range_filterMap_get resources (min limit resources.length)]
  rcases Nat.le_total limit resources.length with hle | hle
  · rw [Nat.min_eq_left hle]
  · rw [Nat.min_eq_right hle, List.take_of_length_le hle,
      List.take_of_length_le (le_refl _)]

/-- Witness for C8 (amended) at the 3-resource corpus with ratings [5, 3, 4]
and a 3-row feature matrix. -/
theorem C8_new_user_original_order_witness :
    (getRecommendations pyhash0 (some [[0, 0], [0, 0], [0, 0]]) 1 {} [] exCorpus3 10).map
      (fun rec => rec.resource) = exCorpus3.take 10 :=
  C8_new_user_original_order pyhash0 [[0, 0], [0, 0], [0, 0]] 2 1 {} exCorpus3 10 rfl
    (by decide) rfl rfl

/-- Counterexample for C8 as stated: on the corpus with ratings [5, 3, 4], a
new user with no interactions and no preferences receives the resources in
original corpus order [5, 3, 4], not in the claimed rating-descending order
[5, 4, 3]. -/
theorem C8_counterexample :
    (getRecommendations pyhash0 none 1 {} [] exCorpus3 10).map
      (fun rec => rec.resource.rating) = [5, 3, 4]
    ∧ (getRecommendations pyhash0 none 1 {} [] exCorpus3 10).map
      (fun rec => rec.resource.rating) ≠ [5, 4, 3] := by
  constructor
  · with_unfolding_all decide
  · with_unfolding_all decide

/-- C4 (amended): the feature matrix has one row per resource and a column
count of min(20, width - 1) on the regular path (20 on the degenerate and
exception paths), so the column count never exceeds 20 but varies with the
corpus: it is not a fixed constant. -/
theorem C4_feature_shape (rs : List Resource) :
    (createResourceFeatures rs).length = rs.length
    ∧ (∀ row ∈ createResourceFeatures rs, row.length = featureDim rs)
    ∧ featureDim rs ≤ 20
    ∧ (∀ w, featureWidth rs = some w → rs.length ≠ 0 → w ≠ 0 →
        featureDim rs = min 20 (w - 1)) := by
  refine ⟨List.length_replicate .., ?_, ?_, ?_⟩
  · intro row hrow
    rw [List.eq_of_mem_replicate hrow]
    exact List.length_replicate ..
  · unfold featureDim
    cases hfw : featureWidth rs with
    | none => exact le_refl 20
    | some w =>
      dsimp only
      split
      · exact le_refl 20
      · exact Nat.min_le_left 20 (w - 1)
  · intro w hw hN h0
    unfold featureDim
    rw [hw]
    dsimp only
    rw [if_neg (by simp [hN, h0])]

set_option maxRecDepth 4000 in
/-- Witness for C4 (amended) at the one-resource corpus with title "alpha":
the combined width is 7 and the row length is min(20, 6) = 6. -/
theorem C4_feature_shape_witness :
    ((createResourceFeatures [exAlpha]).length = ([exAlpha] : List Resource).length
    ∧ (∀ row ∈ createResourceFeatures [exAlpha], row.length = featureDim [exAlpha])
    ∧ featureDim [exAlpha] ≤ 20
    ∧ (∀ w, featureWidth [exAlpha] = some w → ([exAlpha] : List Resource).length ≠ 0 →
        w ≠ 0 → featureDim [exAlpha] = min 20 (w - 1)))
    ∧ featureWidth [exAlpha] = some 7 ∧ featureDim [exAlpha] = 6 :=
  ⟨C4_feature_shape [exAlpha], by with_unfolding_all decide, by with_unfolding_all decide⟩

set_option maxRecDepth 4000 in
/-- Counterexample for C4 as stated: two corpora whose feature dimensionalities
differ (6 for a one-word title, 20 for a 21-word title), so the output
dimensionality is not a fixed constant independent of corpus content. -/
theorem C4_counterexample :
    featureDim [exAlpha] = 6 ∧ featureDim [exWide] = 20
    ∧ ((createResourceFeatures [exAlpha]).getD 0 []).length
      ≠ ((createResourceFeatures [exWide]).getD 0 []).length := by
  refine ⟨by with_unfolding_all decide, by with_unfolding_all decide,
    by with_unfolding_all decide⟩

end Theorems

end LearnRoadmap
